import Mathlib

/-!
Verification development for the-hypertrophy-logbook (Sculp), a Remix
fitness-training web application. The definitions below are a shallow
embedding of the route-level logic found in the repository slice:

- the sign-in route action (schema validation via zod and conform's parse,
  credential verification, subscription branching, redirect/session
  responses);
- the root ErrorBoundary (error page keyed by HTTP status);
- the folder-notes debounced form submission;
- the mesocycle-designer exercise fieldset (bounded set list with default
  new-set values).

External collaborators (verifyLogin, createStripeCheckoutSession, the
session store, zod's internal email-format check, generateId) are modelled
as oracles gathered in an Env record: the embedded action is parametric in
them, exactly as the route code is parametric in the modules it imports.
Remix's redirect helper defaults to HTTP status 302 when no status is
supplied; the embedding encodes that default.
-/

namespace Sculp

/-! The raw form data of a POST to the sign-in route: each field is either
absent or a string, plus the conform intent (conform's parse defaults the
intent to "submit" for a plain submission). -/

structure RawForm where
  email : Option String
  password : Option String
  intent : String
deriving Repr, DecidableEq

/-- Validated data of the sign-in zod schema. -/
structure SchemaData where
  email : String
  password : String
deriving Repr, DecidableEq

/-- Issue messages produced by the zod checks on the email field, in check
order: min 1 with message "Email is required.", max 254, then the
format check .email with message "Email is not valid.". The format
predicate fmt stands for zod's internal email regular expression, an
external-library oracle. -/
def emailChecks (fmt : String → Bool) (s : String) : List String :=
  (if s.length < 1 then ["Email is required."] else []) ++
    (if 254 < s.length then ["Email must be at most 254 characters long."] else []) ++
      (if fmt s then [] else ["Email is not valid."])

/-- Issue messages produced by the zod checks on the password field:
min 8 and max 128. -/
def passwordChecks (s : String) : List String :=
  (if s.length < 8 then ["Password must be at least 8 characters long."] else []) ++
    (if 128 < s.length then ["Password must be at most 128 characters long."] else [])

/-- Per-field error entry for the email field: an absent field raises the
required error, otherwise the first failing check's message is kept
(conform keeps one message per field name). -/
def emailFieldError (fmt : String → Bool) : Option String → List (String × String)
  | none => [("email", "Email is required.")]
  | some s =>
    match emailChecks fmt s with
    | [] => []
    | m :: _ => [("email", m)]

/-- Per-field error entry for the password field. -/
def passwordFieldError : Option String → List (String × String)
  | none => [("password", "Password is required.")]
  | some s =>
    match passwordChecks s with
    | [] => []
    | m :: _ => [("password", m)]

/-- All per-field validation errors of a raw sign-in form. -/
def fieldErrors (fmt : String → Bool) (f : RawForm) : List (String × String) :=
  emailFieldError fmt f.email ++ passwordFieldError f.password

/-- The value part of conform's parse result: present exactly when both
fields are present and every schema check passes. -/
def parseValue (fmt : String → Bool) (f : RawForm) : Option SchemaData :=
  match f.email, f.password with
  | some e, some p =>
    if fieldErrors fmt f = [] then some { email := e, password := p } else none
  | _, _ => none

/-- A parsed submission, as returned by conform's parse: the intent, the
validated value when validation succeeded, and the per-field errors. -/
structure Submission where
  intent : String
  value : Option SchemaData
  error : List (String × String)
deriving Repr, DecidableEq

/-- Embedding of parse(formData, schema) for the sign-in schema. -/
def parseForm (fmt : String → Bool) (f : RawForm) : Submission :=
  { intent := f.intent, value := parseValue fmt f, error := fieldErrors fmt f }

/-- Writing submission.error at key "form", as the action does on
credential failure. -/
def setFormError (sub : Submission) (msg : String) : Submission :=
  { sub with error := sub.error ++ [("form", msg)] }

/-- The generic credential-failure message of the sign-in action. -/
def invalidCredentialsMessage : String :=
  "You have entered an invalid email or password."

/-- A user record as seen by the action: subscription and
stripeCustomerId are optional. -/
structure User where
  id : String
  email : String
  subscription : Option String
  stripeCustomerId : Option String
deriving Repr, DecidableEq

/-- The external collaborators of the sign-in route, as oracles. -/
structure Env where
  emailFormatOk : String → Bool
  verifyLogin : String → String → Option User
  createStripeCheckoutSession : String → String → String → Option String → String
  createUserSession : String → String
  commitSession : String → String
  generatedId : String
  appRoot : String
  signInRoute : String

/-- HTTP responses the action can produce: a JSON re-presentation of the
submission with a status, or a redirect with a location, a status and an
optional Set-Cookie header. -/
inductive Response where
  | json (sub : Submission) (status : Nat)
  | redirect (location : String) (status : Nat) (setCookie : Option String)
deriving Repr, DecidableEq

/-- Server-side effects the action can perform. -/
inductive Effect where
  | createdCheckout (userId : String)
  | createdUserSession (userId : String)
deriving Repr, DecidableEq

/-- Result of running the action: the response, the list of server-side
effects performed, and the arguments of every verifyLogin call made. -/
structure ActionResult where
  response : Response
  effects : List Effect
  verifyCalls : List (String × String)
deriving Repr, DecidableEq

/-- The branching body of the sign-in action on a parsed submission,
mirroring the route code line by line: missing value or non-submit intent
gives json 400; failed credentials give json 400 with the form error; a
user with no subscription is sent to a Stripe checkout session with
status 303; a subscribed user gets a session cookie and a redirect to the
app root (redirect with a headers-only init, hence Remix's default
status 302). -/
def handle (env : Env) (sub : Submission) : ActionResult :=
  match sub.value with
  | none => { response := .json sub 400, effects := [], verifyCalls := [] }
  | some v =>
    if sub.intent = "submit" then
      match env.verifyLogin v.email v.password with
      | none =>
        { response := .json (setFormError sub invalidCredentialsMessage) 400
          effects := []
          verifyCalls := [(v.email, v.password)] }
      | some user =>
        match user.subscription with
        | none =>
          { response := .redirect
              (env.createStripeCheckoutSession user.id user.email
                (env.signInRoute ++ "?canceled_id=" ++ env.generatedId)
                user.stripeCustomerId)
              303 none
            effects := [.createdCheckout user.id]
            verifyCalls := [(v.email, v.password)] }
        | some _ =>
          { response := .redirect env.appRoot 302
              (some (env.commitSession (env.createUserSession user.id)))
            effects := [.createdUserSession user.id]
            verifyCalls := [(v.email, v.password)] }
    else { response := .json sub 400, effects := [], verifyCalls := [] }

/-- The sign-in route action: parse the form data, then handle the
submission. -/
def action (env : Env) (f : RawForm) : ActionResult :=
  handle env (parseForm env.emailFormatOk f)

theorem parseForm_value (fmt : String → Bool) (f : RawForm) :
    (parseForm fmt f).value = parseValue fmt f := rfl

theorem parseForm_intent (fmt : String → Bool) (f : RawForm) :
    (parseForm fmt f).intent = f.intent := rfl

theorem parseForm_error (fmt : String → Bool) (f : RawForm) :
    (parseForm fmt f).error = fieldErrors fmt f := rfl

theorem emailChecks_eq_nil {fmt : String → Bool} {s : String} :
    emailChecks fmt s = [] ↔
      1 ≤ s.length ∧ s.length ≤ 254 ∧ fmt s = true := by
  unfold emailChecks
  by_cases h1 : s.length < 1 <;> by_cases h2 : 254 < s.length <;>
    by_cases h3 : fmt s
  all_goals simp [h1, h2, h3]
  all_goals omega

theorem passwordChecks_eq_nil {s : String} :
    passwordChecks s = [] ↔ 8 ≤ s.length ∧ s.length ≤ 128 := by
  unfold passwordChecks
  by_cases h1 : s.length < 8 <;> by_cases h2 : 128 < s.length
  all_goals simp [h1, h2]
  all_goals omega

theorem emailFieldError_eq_nil {fmt : String → Bool} {o : Option String} :
    emailFieldError fmt o = [] ↔
      ∃ s, o = some s ∧ emailChecks fmt s = [] := by
  cases o with
  | none => simp [emailFieldError]
  | some s =>
    unfold emailFieldError
    cases hc : emailChecks fmt s
    all_goals simp_all

theorem passwordFieldError_eq_nil {o : Option String} :
    passwordFieldError o = [] ↔
      ∃ s, o = some s ∧ passwordChecks s = [] := by
  cases o with
  | none => simp [passwordFieldError]
  | some s =>
    unfold passwordFieldError
    cases hc : passwordChecks s
    all_goals simp_all

theorem parseValue_some_iff {fmt : String → Bool} {f : RawForm} {v : SchemaData} :
    parseValue fmt f = some v ↔
      f.email = some v.email ∧ f.password = some v.password ∧
        fieldErrors fmt f = [] := by
  obtain ⟨oe, op, it⟩ := f
  obtain ⟨ve, vp⟩ := v
  cases oe with
  | none => simp [parseValue]
  | some e =>
    cases op with
    | none => simp [parseValue]
    | some p =>
      by_cases hE : fieldErrors fmt (RawForm.mk (some e) (some p) it) = [] <;>
        simp [parseValue, hE]

theorem parseForm_eq_of_value_some {fmt : String → Bool} {f : RawForm}
    {v : SchemaData} (h : parseValue fmt f = some v) :
    parseForm fmt f = { intent := f.intent, value := some v, error := [] } := by
  obtain ⟨-, -, herr⟩ := parseValue_some_iff.mp h
  unfold parseForm
  rw [herr, h]

theorem parseValue_some_bounds {fmt : String → Bool} {f : RawForm}
    {v : SchemaData} (h : parseValue fmt f = some v) :
    1 ≤ v.email.length ∧ v.email.length ≤ 254 ∧ fmt v.email = true ∧
      8 ≤ v.password.length ∧ v.password.length ≤ 128 := by
  obtain ⟨he, hp, herr⟩ := parseValue_some_iff.mp h
  rw [fieldErrors, List.append_eq_nil] at herr
  obtain ⟨hee, hpe⟩ := herr
  obtain ⟨s1, hs1, hc1⟩ := emailFieldError_eq_nil.mp hee
  obtain ⟨s2, hs2, hc2⟩ := passwordFieldError_eq_nil.mp hpe
  rw [he] at hs1
  rw [hp] at hs2
  obtain rfl : s1 = v.email := by injection hs1.symm
  obtain rfl : s2 = v.password := by injection hs2.symm
  obtain ⟨b1, b2, b3⟩ := emailChecks_eq_nil.mp hc1
  obtain ⟨b4, b5⟩ := passwordChecks_eq_nil.mp hc2
  exact ⟨b1, b2, b3, b4, b5⟩

/-! Concrete instantiation of the external collaborators, used to evaluate
the action on concrete submissions. -/

/-- A demo user that has completed the subscription. -/
def annUser : User :=
  { id := "user-ann", email := "ann@example.com",
    subscription := some "sub-ann", stripeCustomerId := some "cus-ann" }

/-- A demo user without a subscription. -/
def bobUser : User :=
  { id := "user-bob", email := "bob@example.com",
    subscription := none, stripeCustomerId := none }

/-- A concrete environment: the email-format oracle accepts the two demo
addresses, verifyLogin accepts one password per demo user, and the other
oracles build distinctive strings. -/
def demoEnv : Env :=
  { emailFormatOk := fun s => decide (s = "ann@example.com" ∨ s = "bob@example.com")
    verifyLogin := fun e p =>
      if e = "ann@example.com" ∧ p = "secret-pass-1" then some annUser
      else if e = "bob@example.com" ∧ p = "secret-pass-1" then some bobUser
      else none
    createStripeCheckoutSession := fun uid _ _ _ => "https://checkout.stripe.com/" ++ uid
    createUserSession := fun uid => "sess-" ++ uid
    commitSession := fun s => "cookie=" ++ s
    generatedId := "gid-1"
    appRoot := "/app"
    signInRoute := "/sign-in" }

/-- A valid submission by the subscribed demo user. -/
def annForm : RawForm :=
  { email := some "ann@example.com", password := some "secret-pass-1",
    intent := "submit" }

/-- A valid submission by the unsubscribed demo user. -/
def bobForm : RawForm :=
  { email := some "bob@example.com", password := some "secret-pass-1",
    intent := "submit" }

/-- A schema-valid submission whose credentials verify to no user. -/
def wrongPasswordForm : RawForm :=
  { email := some "ann@example.com", password := some "totally-wrong-1",
    intent := "submit" }

/-- A submission that fails schema validation: the password is shorter
than 8 characters. -/
def shortPasswordForm : RawForm :=
  { email := some "ann@example.com", password := some "short",
    intent := "submit" }

/-- A submission with both fields absent. -/
def emptyForm : RawForm :=
  { email := none, password := none, intent := "submit" }

/-! Root ErrorBoundary (root.tsx): errors caught by the boundary are either
route error responses carrying an HTTP status (isRouteErrorResponse) or
arbitrary thrown values. -/

inductive RouteError where
  | response (status : Nat)
  | thrown (message : String)
deriving Repr, DecidableEq

/-- What the boundary renders: an ErrorPage with a status code, title and
subtitle, or a rethrow escalating to the framework. -/
inductive ErrorRender where
  | page (statusCode : Nat) (title : String) (subtitle : String)
  | rethrow (message : String)
deriving Repr, DecidableEq

/-- Embedding of the root ErrorBoundary component: a 404 route error
response renders the page-not-found page, any other non-500 route error
response renders the generic failure page for the current pathname, a 500
route error response is rethrown as a new Error, and any non-response
error renders the generic failure page with status code 500. -/
def ErrorBoundary (error : RouteError) (pathname : String) : ErrorRender :=
  match error with
  | .response status =>
    if status = 404 then
      .page status "Page not found"
        ("\"" ++ pathname ++ "\" is not a page. So sorry.")
    else if status ≠ 500 then
      .page status "Oh no, something did not go well."
        ("\"" ++ pathname ++ "\" is currently not working. So sorry.")
    else
      .rethrow ("Unhandled error: " ++ toString status)
  | .thrown _ =>
    .page 500 "Oh no, something did not go well."
      ("\"" ++ pathname ++ "\" is currently not working. So sorry.")

/-- True when the boundary rendered an error page rather than rethrowing. -/
def rendersPage : ErrorRender → Bool
  | .page _ _ _ => true
  | .rethrow _ => false

/-! Folder notes (folder.tsx): the notes form is wired to a debounced
submit with replace and preventScrollReset set. -/

/-- Navigation options of a form submission. -/
structure SubmitOptions where
  replace : Bool
  preventScrollReset : Bool
deriving Repr, DecidableEq

/-- Options passed to useDebouncedSubmit at the folder-notes call site. -/
def folderNotesSubmitOptions : SubmitOptions :=
  { replace := true, preventScrollReset := true }

/-- Modelled from the spec: the useDebouncedSubmit hook is referenced from
folder.tsx but defined in a utils module outside this slice; the spec says
the enclosing form is submitted after a quiescence period following the
last input change. Time is a discrete Nat clock, changes lists the times
at which input change events fired, and delay is the quiescence period:
the form submits at time t exactly when some change happened at t - delay
and no change happened after it. -/
def debouncedSubmitFires (delay : Nat) (changes : List Nat) (t : Nat) : Bool :=
  decide (delay ≤ t ∧ (t - delay) ∈ changes ∧ ∀ c ∈ changes, c ≤ t - delay)

/-- The time of the last input change (0 for an empty list). -/
def lastChange (changes : List Nat) : Nat :=
  changes.foldr max 0

/-! Exercise fieldset (exercise-fieldset.tsx): the sets field list, the
Add set button guard, and the default values of an appended set. -/

/-- The editable fields of one set row in the designer. -/
structure SetFields where
  rir : String
  repRange : String
  weight : String
deriving Repr, DecidableEq

/-- Default values given to a newly appended set by the Add set button. -/
def defaultNewSet : SetFields :=
  { rir := "0", repRange := "5-8", weight := "" }

/-- The Add set button is rendered exactly when the set list has fewer
than 10 entries. -/
def addSetButtonRendered (setsList : List SetFields) : Bool :=
  setsList.length < 10

/-- Effect of activating the Add set control: when the button is rendered
the default set is appended, otherwise (no button) the list is unchanged. -/
def clickAddSet (setsList : List SetFields) : List SetFields :=
  if addSetButtonRendered setsList then setsList ++ [defaultNewSet] else setsList

theorem mem_le_lastChange (l : List Nat) : ∀ c ∈ l, c ≤ lastChange l := by
  induction l with
  | nil => simp
  | cons a t ih =>
    intro c hc
    rcases List.mem_cons.mp hc with rfl | hct
    · exact le_max_left _ _
    · exact le_trans (ih c hct) (le_max_right _ _)

theorem lastChange_mem {l : List Nat} (h : l ≠ []) : lastChange l ∈ l := by
  induction l with
  | nil => exact absurd rfl h
  | cons a t ih =>
    cases t with
    | nil => simp [lastChange]
    | cons b u =>
      by_cases hle : lastChange (b :: u) ≤ a
      · have : lastChange (a :: b :: u) = a := by
          simp only [lastChange, List.foldr]
          exact max_eq_left hle
        rw [this]
        exact List.mem_cons_self a _
      · have : lastChange (a :: b :: u) = lastChange (b :: u) := by
          simp only [lastChange, List.foldr]
          exact max_eq_right (le_of_not_le hle)
        rw [this]
        exact List.mem_cons_of_mem a (ih (by simp))

theorem lastChange_le {l : List Nat} {m : Nat} (h : ∀ c ∈ l, c ≤ m) :
    lastChange l ≤ m := by
  induction l with
  | nil => simp [lastChange]
  | cons a t ih =>
    have : lastChange (a :: t) = max a (lastChange t) := rfl
    rw [this]
    exact max_le (h a (List.mem_cons_self a t))
      (ih fun c hc => h c (List.mem_cons_of_mem a hc))

theorem clickAddSet_length_le {sets : List SetFields} (h : sets.length ≤ 10) :
    (clickAddSet sets).length ≤ 10 := by
  unfold clickAddSet addSetButtonRendered
  split
  · rename_i hlt
    simp only [List.length_append, List.length_cons, List.length_nil]
    simp only [decide_eq_true_eq] at hlt
    omega
  · exact h

theorem clicks_length_le :
    ∀ (n : Nat) (sets : List SetFields), sets.length ≤ 10 →
      ((clickAddSet)^[n] sets).length ≤ 10 := by
  intro n
  induction n with
  | zero => intro sets h; simpa using h
  | succ k ih =>
    intro sets h
    rw [Function.iterate_succ_apply]
    exact ih (clickAddSet sets) (clickAddSet_length_le h)

theorem emailFieldError_keys {fmt : String → Bool} {o : Option String}
    {kv : String × String} (h : kv ∈ emailFieldError fmt o) : kv.1 = "email" := by
  cases o with
  | none =>
    simp only [emailFieldError, List.mem_singleton] at h
    simp [h]
  | some s =>
    cases hc : emailChecks fmt s with
    | nil => simp [emailFieldError, hc] at h
    | cons m t =>
      simp only [emailFieldError, hc, List.mem_singleton] at h
      simp [h]

theorem passwordFieldError_keys {o : Option String}
    {kv : String × String} (h : kv ∈ passwordFieldError o) : kv.1 = "password" := by
  cases o with
  | none =>
    simp only [passwordFieldError, List.mem_singleton] at h
    simp [h]
  | some s =>
    cases hc : passwordChecks s with
    | nil => simp [passwordFieldError, hc] at h
    | cons m t =>
      simp only [passwordFieldError, hc, List.mem_singleton] at h
      simp [h]

/-- C1: for every sign-in form submission whose email and password pass
schema validation and whose credentials verify to a user that has a
subscription, the action creates a user session and returns a redirect to
the app root with a Set-Cookie header carrying the committed session. -/
theorem signIn_subscribed_creates_session (env : Env) (f : RawForm)
    (v : SchemaData) (user : User) (subId : String)
    (hv : parseValue env.emailFormatOk f = some v)
    (hi : f.intent = "submit")
    (hu : env.verifyLogin v.email v.password = some user)
    (hs : user.subscription = some subId) :
    (action env f).response =
      Response.redirect env.appRoot 302
        (some (env.commitSession (env.createUserSession user.id)))
    ∧ (action env f).effects = [Effect.createdUserSession user.id] := by
  have hsub := parseForm_eq_of_value_some hv
  unfold action
  rw [hsub]
  simp [handle, hi, hu, hs]

/-- Witness for C1 at the subscribed demo user. -/
theorem signIn_subscribed_creates_session_witness :
    (action demoEnv annForm).response =
      Response.redirect demoEnv.appRoot 302
        (some (demoEnv.commitSession (demoEnv.createUserSession annUser.id)))
    ∧ (action demoEnv annForm).effects = [Effect.createdUserSession annUser.id] :=
  signIn_subscribed_creates_session demoEnv annForm
    { email := "ann@example.com", password := "secret-pass-1" } annUser "sub-ann"
    (by decide) rfl (by decide) rfl

/-- C2: for every sign-in form submission whose credentials verify to a
user without a subscription, the action creates a checkout session and
returns a 303 redirect to the returned external checkout URL, with no
user session created. -/
theorem signIn_unsubscribed_redirects_checkout (env : Env) (f : RawForm)
    (v : SchemaData) (user : User)
    (hv : parseValue env.emailFormatOk f = some v)
    (hi : f.intent = "submit")
    (hu : env.verifyLogin v.email v.password = some user)
    (hs : user.subscription = none) :
    (action env f).response =
      Response.redirect
        (env.createStripeCheckoutSession user.id user.email
          (env.signInRoute ++ "?canceled_id=" ++ env.generatedId)
          user.stripeCustomerId)
        303 none
    ∧ (action env f).effects = [Effect.createdCheckout user.id]
    ∧ ∀ u, Effect.createdUserSession u ∉ (action env f).effects := by
  have hsub := parseForm_eq_of_value_some hv
  unfold action
  rw [hsub]
  simp [handle, hi, hu, hs]

/-- Witness for C2 at the unsubscribed demo user. -/
theorem signIn_unsubscribed_redirects_checkout_witness :
    (action demoEnv bobForm).response =
      Response.redirect
        (demoEnv.createStripeCheckoutSession bobUser.id bobUser.email
          (demoEnv.signInRoute ++ "?canceled_id=" ++ demoEnv.generatedId)
          bobUser.stripeCustomerId)
        303 none
    ∧ (action demoEnv bobForm).effects = [Effect.createdCheckout bobUser.id]
    ∧ ∀ u, Effect.createdUserSession u ∉ (action demoEnv bobForm).effects :=
  signIn_unsubscribed_redirects_checkout demoEnv bobForm
    { email := "bob@example.com", password := "secret-pass-1" } bobUser
    (by decide) rfl (by decide) rfl

/-- C4: for every sign-in submission that passes schema validation but
whose credentials do not verify to a user, the action returns HTTP 400
with the single generic form-level error message attached to the
submission, and performs no side effect. -/
theorem signIn_invalid_credentials_400 (env : Env) (f : RawForm)
    (v : SchemaData)
    (hv : parseValue env.emailFormatOk f = some v)
    (hi : f.intent = "submit")
    (hu : env.verifyLogin v.email v.password = none) :
    (action env f).response =
      Response.json
        { intent := f.intent, value := some v,
          error := [("form", invalidCredentialsMessage)] } 400
    ∧ (action env f).effects = [] := by
  have hsub := parseForm_eq_of_value_some hv
  unfold action
  rw [hsub]
  simp [handle, setFormError, hi, hu]

/-- Witness for C4 at a wrong password for the demo user. -/
theorem signIn_invalid_credentials_400_witness :
    (action demoEnv wrongPasswordForm).response =
      Response.json
        { intent := "submit",
          value := some { email := "ann@example.com", password := "totally-wrong-1" },
          error := [("form", invalidCredentialsMessage)] } 400
    ∧ (action demoEnv wrongPasswordForm).effects = [] :=
  signIn_invalid_credentials_400 demoEnv wrongPasswordForm
    { email := "ann@example.com", password := "totally-wrong-1" }
    (by decide) rfl (by decide)

/-- C5: for every sign-in submission that fails schema validation (or
whose intent is not submit), the action returns HTTP 400 re-presenting
the submission with its per-field validation errors, and performs no side
effect. -/
theorem signIn_validation_failure_400 (env : Env) (f : RawForm)
    (h : parseValue env.emailFormatOk f = none ∨ f.intent ≠ "submit") :
    action env f =
      { response := Response.json (parseForm env.emailFormatOk f) 400,
        effects := [], verifyCalls := [] }
    ∧ (parseValue env.emailFormatOk f = none →
        (parseForm env.emailFormatOk f).error ≠ [])
    ∧ ∀ kv ∈ (parseForm env.emailFormatOk f).error,
        kv.1 = "email" ∨ kv.1 = "password" := by
  refine ⟨?_, ?_, ?_⟩
  · rcases h with h | h
    · unfold action handle
      simp [parseForm, h]
    · unfold action handle
      cases hpv : parseValue env.emailFormatOk f with
      | none => simp [parseForm, hpv]
      | some v => simp [parseForm, hpv, h]
  · intro hpv
    intro hE
    rw [parseForm_error, fieldErrors, List.append_eq_nil] at hE
    obtain ⟨hee, hpe⟩ := hE
    obtain ⟨s1, hs1, hc1⟩ := emailFieldError_eq_nil.mp hee
    obtain ⟨s2, hs2, hc2⟩ := passwordFieldError_eq_nil.mp hpe
    have : parseValue env.emailFormatOk f = some { email := s1, password := s2 } := by
      apply parseValue_some_iff.mpr
      refine ⟨hs1, hs2, ?_⟩
      rw [fieldErrors, hs1, hs2]
      simp [emailFieldError, passwordFieldError, hc1, hc2]
    rw [this] at hpv
    exact Option.noConfusion hpv
  · intro kv hkv
    rw [parseForm_error, fieldErrors] at hkv
    rcases List.mem_append.mp hkv with hk | hk
    · exact Or.inl (emailFieldError_keys hk)
    · exact Or.inr (passwordFieldError_keys hk)

/-- Witness for C5 at a submission with a too-short password. -/
theorem signIn_validation_failure_400_witness :
    action demoEnv shortPasswordForm =
      { response :=
          Response.json (parseForm demoEnv.emailFormatOk shortPasswordForm) 400,
        effects := [], verifyCalls := [] } :=
  (signIn_validation_failure_400 demoEnv shortPasswordForm (Or.inl (by decide))).1

/-- Exhaustive case analysis of the sign-in action: validation failure,
credential failure, checkout redirect, or session redirect, each with its
complete result. -/
theorem action_spec (env : Env) (f : RawForm) :
    (action env f =
        { response := Response.json (parseForm env.emailFormatOk f) 400,
          effects := [], verifyCalls := [] }
      ∧ (parseValue env.emailFormatOk f = none ∨ f.intent ≠ "submit"))
    ∨ (∃ v, parseValue env.emailFormatOk f = some v ∧ f.intent = "submit" ∧
        ((env.verifyLogin v.email v.password = none ∧
            action env f =
              { response :=
                  Response.json
                    { intent := f.intent, value := some v,
                      error := [("form", invalidCredentialsMessage)] } 400,
                effects := [], verifyCalls := [(v.email, v.password)] })
          ∨ (∃ user, env.verifyLogin v.email v.password = some user ∧
              ((user.subscription = none ∧
                  action env f =
                    { response :=
                        Response.redirect
                          (env.createStripeCheckoutSession user.id user.email
                            (env.signInRoute ++ "?canceled_id=" ++ env.generatedId)
                            user.stripeCustomerId) 303 none,
                      effects := [Effect.createdCheckout user.id],
                      verifyCalls := [(v.email, v.password)] })
                ∨ (∃ subId, user.subscription = some subId ∧
                    action env f =
                      { response :=
                          Response.redirect env.appRoot 302
                            (some (env.commitSession (env.createUserSession user.id))),
                        effects := [Effect.createdUserSession user.id],
                        verifyCalls := [(v.email, v.password)] }))))) := by
  cases hpv : parseValue env.emailFormatOk f with
  | none =>
    left
    refine ⟨?_, Or.inl rfl⟩
    unfold action handle
    simp [parseForm, hpv]
  | some v =>
    by_cases hi : f.intent = "submit"
    · right
      refine ⟨v, rfl, hi, ?_⟩
      cases hu : env.verifyLogin v.email v.password with
      | none =>
        left
        refine ⟨rfl, ?_⟩
        have hsub := parseForm_eq_of_value_some hpv
        unfold action
        rw [hsub]
        simp [handle, setFormError, hi, hu]
      | some user =>
        right
        refine ⟨user, rfl, ?_⟩
        cases hs : user.subscription with
        | none =>
          left
          refine ⟨rfl, ?_⟩
          have hsub := parseForm_eq_of_value_some hpv
          unfold action
          rw [hsub]
          simp [handle, hi, hu, hs]
        | some subId =>
          right
          refine ⟨subId, rfl, ?_⟩
          have hsub := parseForm_eq_of_value_some hpv
          unfold action
          rw [hsub]
          simp [handle, hi, hu, hs]
    · left
      refine ⟨?_, Or.inr hi⟩
      unfold action handle
      simp [parseForm, hpv, hi]

/-- C3 counterexample: a sign-in by a subscribed user yields the app-root
redirect with status 302 (redirect called with a headers-only init takes
Remix's default status), not 303. -/
theorem signIn_appRoot_redirect_not_303 :
    (action demoEnv annForm).response =
      Response.redirect "/app" 302 (some "cookie=sess-user-ann")
    ∧ (302 : Nat) ≠ 303 :=
  ⟨by decide, by decide⟩

/-- C3 amended: the redirect to the external checkout flow has status 303
and carries no cookie; the redirect to the internal app root is issued
with the default redirect status 302 and carries the session cookie. -/
theorem signIn_redirect_statuses (env : Env) (f : RawForm)
    (loc : String) (st : Nat) (ck : Option String)
    (h : (action env f).response = Response.redirect loc st ck) :
    (st = 303 ∧ ck = none) ∨ (st = 302 ∧ loc = env.appRoot ∧ ck ≠ none) := by
  rcases action_spec env f with ⟨ha, -⟩ |
    ⟨v, -, -, ⟨-, ha⟩ | ⟨user, -, ⟨-, ha⟩ | ⟨subId, -, ha⟩⟩⟩ <;> rw [ha] at h
  · exact absurd h (by simp)
  · exact absurd h (by simp)
  · have h2 :
        Response.redirect
          (env.createStripeCheckoutSession user.id user.email
            (env.signInRoute ++ "?canceled_id=" ++ env.generatedId)
            user.stripeCustomerId) 303 none = Response.redirect loc st ck := h
    injection h2 with e1 e2 e3
    exact Or.inl ⟨e2.symm, e3.symm⟩
  · have h2 :
        Response.redirect env.appRoot 302
          (some (env.commitSession (env.createUserSession user.id))) =
          Response.redirect loc st ck := h
    injection h2 with e1 e2 e3
    refine Or.inr ⟨e2.symm, e1.symm, ?_⟩
    rw [← e3]
    simp

/-- Witness for the amended C3 at the unsubscribed demo user. -/
theorem signIn_redirect_statuses_witness :
    ((303 : Nat) = 303 ∧ (none : Option String) = none)
    ∨ ((303 : Nat) = 302 ∧ "https://checkout.stripe.com/user-bob" = demoEnv.appRoot
        ∧ (none : Option String) ≠ none) :=
  signIn_redirect_statuses demoEnv bobForm
    "https://checkout.stripe.com/user-bob" 303 none (by decide)

/-- C6: the sign-in action performs at most one side effect per
submission — one of checkout-session creation or user-session creation —
and performs none whenever the response is an error (json) response. -/
theorem signIn_at_most_one_side_effect (env : Env) (f : RawForm) :
    ((action env f).effects = []
      ∨ (∃ u, (action env f).effects = [Effect.createdCheckout u])
      ∨ (∃ u, (action env f).effects = [Effect.createdUserSession u]))
    ∧ (∀ sub n, (action env f).response = Response.json sub n →
        (action env f).effects = []) := by
  rcases action_spec env f with ⟨ha, -⟩ |
    ⟨v, -, -, ⟨-, ha⟩ | ⟨user, -, ⟨-, ha⟩ | ⟨subId, -, ha⟩⟩⟩ <;> rw [ha]
  · exact ⟨Or.inl rfl, fun sub n _ => rfl⟩
  · exact ⟨Or.inl rfl, fun sub n _ => rfl⟩
  · refine ⟨Or.inr (Or.inl ⟨user.id, rfl⟩), ?_⟩
    intro sub n hresp
    exact absurd hresp (by simp)
  · refine ⟨Or.inr (Or.inr ⟨user.id, rfl⟩), ?_⟩
    intro sub n hresp
    exact absurd hresp (by simp)

/-- Witness for C6 at the empty submission. -/
theorem signIn_at_most_one_side_effect_witness :
    (action demoEnv emptyForm).effects = [] :=
  (signIn_at_most_one_side_effect demoEnv emptyForm).2
    (parseForm demoEnv.emailFormatOk emptyForm) 400 (by decide)

/-- C9: verifyLogin is called by the action only on inputs that satisfy
the schema bounds (email format valid and 1 to 254 characters, password 8
to 128 characters); a submission whose fields violate the bounds never
reaches the credential check and receives a 400 response instead. -/
theorem verifyLogin_precondition (env : Env) (f : RawForm) :
    (∀ pr ∈ (action env f).verifyCalls,
        1 ≤ pr.1.length ∧ pr.1.length ≤ 254 ∧ env.emailFormatOk pr.1 = true ∧
          8 ≤ pr.2.length ∧ pr.2.length ≤ 128)
    ∧ (∀ e p, f.email = some e → f.password = some p →
        ¬(1 ≤ e.length ∧ e.length ≤ 254 ∧ env.emailFormatOk e = true ∧
            8 ≤ p.length ∧ p.length ≤ 128) →
        (action env f).verifyCalls = []
          ∧ (action env f).response =
              Response.json (parseForm env.emailFormatOk f) 400) := by
  constructor
  · intro pr hpr
    rcases action_spec env f with ⟨ha, -⟩ |
      ⟨v, hv, -, ⟨-, ha⟩ | ⟨user, -, ⟨-, ha⟩ | ⟨subId, -, ha⟩⟩⟩ <;> rw [ha] at hpr
    · simp at hpr
    all_goals
      simp only [List.mem_singleton] at hpr
      subst hpr
      exact parseValue_some_bounds hv
  · intro e p he hp hn
    have hpv : parseValue env.emailFormatOk f = none := by
      cases hq : parseValue env.emailFormatOk f with
      | none => rfl
      | some v =>
        exfalso
        obtain ⟨he2, hp2, -⟩ := parseValue_some_iff.mp hq
        have hb := parseValue_some_bounds hq
        rw [he] at he2
        rw [hp] at hp2
        obtain rfl : e = v.email := by injection he2
        obtain rfl : p = v.password := by injection hp2
        exact hn hb
    constructor
    · unfold action handle
      simp [parseForm, hpv]
    · unfold action handle
      simp [parseForm, hpv]

/-- Witness for C9 at a schema-valid and at a bound-violating form. -/
theorem verifyLogin_precondition_witness :
    (1 ≤ ("ann@example.com").length ∧ ("ann@example.com").length ≤ 254 ∧
      demoEnv.emailFormatOk "ann@example.com" = true ∧
      8 ≤ ("secret-pass-1").length ∧ ("secret-pass-1").length ≤ 128)
    ∧ ((action demoEnv shortPasswordForm).verifyCalls = []
        ∧ (action demoEnv shortPasswordForm).response =
            Response.json (parseForm demoEnv.emailFormatOk shortPasswordForm) 400) :=
  ⟨(verifyLogin_precondition demoEnv annForm).1
      ("ann@example.com", "secret-pass-1") (by decide),
    (verifyLogin_precondition demoEnv shortPasswordForm).2
      "ann@example.com" "short" rfl rfl (by decide)⟩

/-- C7 counterexample: a route error response with status exactly 500 is
rethrown by the root ErrorBoundary, not rendered as an error page. -/
theorem errorBoundary_500_response_rethrows :
    ErrorBoundary (RouteError.response 500) "/app" =
      ErrorRender.rethrow ("Unhandled error: " ++ toString (500 : Nat))
    ∧ rendersPage (ErrorBoundary (RouteError.response 500) "/app") = false :=
  ⟨rfl, rfl⟩

/-- C7 amended: a 404 route error response renders the page-not-found
page; every other route error response except status 500 renders the
generic failure page for the current pathname; a non-response error
renders the generic failure page with status 500; a route error response
with status exactly 500 is rethrown instead of rendered. -/
theorem errorBoundary_cases (st : Nat) (path msg : String) :
    (ErrorBoundary (RouteError.response 404) path =
        ErrorRender.page 404 "Page not found"
          ("\"" ++ path ++ "\" is not a page. So sorry."))
    ∧ (st ≠ 404 → st ≠ 500 →
        ErrorBoundary (RouteError.response st) path =
          ErrorRender.page st "Oh no, something did not go well."
            ("\"" ++ path ++ "\" is currently not working. So sorry."))
    ∧ (ErrorBoundary (RouteError.response 500) path =
        ErrorRender.rethrow ("Unhandled error: " ++ toString (500 : Nat)))
    ∧ (ErrorBoundary (RouteError.thrown msg) path =
        ErrorRender.page 500 "Oh no, something did not go well."
          ("\"" ++ path ++ "\" is currently not working. So sorry.")) := by
  refine ⟨?_, ?_, ?_, ?_⟩
  · simp [ErrorBoundary]
  · intro h404 h500
    simp [ErrorBoundary, h404, h500]
  · simp [ErrorBoundary]
  · simp [ErrorBoundary]

/-- Witness for the amended C7 at status 418. -/
theorem errorBoundary_cases_witness :
    ErrorBoundary (RouteError.response 418) "/teapot" =
      ErrorRender.page 418 "Oh no, something did not go well."
        ("\"" ++ "/teapot" ++ "\" is currently not working. So sorry.") :=
  (errorBoundary_cases 418 "/teapot" "boom").2.1 (by decide) (by decide)

/-- C8: the folder-notes form submission is debounced — it fires exactly
when the quiescence period has elapsed after the last input change and at
no other time — and the call site submits with replace and
preventScrollReset set. -/
theorem folderNotes_debounced_submit (delay : Nat) (changes : List Nat) (t : Nat) :
    (debouncedSubmitFires delay changes t = true ↔
      changes ≠ [] ∧ t = lastChange changes + delay)
    ∧ folderNotesSubmitOptions.replace = true
    ∧ folderNotesSubmitOptions.preventScrollReset = true := by
  refine ⟨?_, rfl, rfl⟩
  unfold debouncedSubmitFires
  simp only [decide_eq_true_eq]
  constructor
  · intro ⟨hd, hm, hall⟩
    have hne : changes ≠ [] := by
      intro h
      rw [h] at hm
      exact absurd hm (by simp)
    have h1 : lastChange changes = t - delay :=
      le_antisymm (lastChange_le hall) (mem_le_lastChange _ _ hm)
    exact ⟨hne, by omega⟩
  · intro ⟨hne, ht⟩
    have hm := lastChange_mem hne
    refine ⟨by omega, ?_, ?_⟩
    · have h1 : t - delay = lastChange changes := by omega
      rw [h1]
      exact hm
    · intro c hc
      have := mem_le_lastChange changes c hc
      omega

/-- Witness for C8: with a 300-tick quiescence period and changes at
times 100 and 250, the form submits at time 550. -/
theorem folderNotes_debounced_submit_witness :
    debouncedSubmitFires 300 [100, 250] 550 = true :=
  (folderNotes_debounced_submit 300 [100, 250] 550).1.mpr (by decide)

/-- C10: the Add set control is rendered exactly while the set list has
fewer than 10 entries, iterating the control from any list of at most 10
sets never exceeds 10 sets, and a newly appended set is initialized with
rir 0, repRange 5-8 and empty weight. -/
theorem addSet_bounded_and_default (sets : List SetFields)
    (hle : sets.length ≤ 10) :
    (∀ n, ((clickAddSet)^[n] sets).length ≤ 10)
    ∧ (addSetButtonRendered sets = true ↔ sets.length < 10)
    ∧ (addSetButtonRendered sets = true →
        clickAddSet sets = sets ++ [defaultNewSet])
    ∧ defaultNewSet.rir = "0" ∧ defaultNewSet.repRange = "5-8"
    ∧ defaultNewSet.weight = "" := by
  refine ⟨fun n => clicks_length_le n sets hle, ?_, ?_, rfl, rfl, rfl⟩
  · simp [addSetButtonRendered]
  · intro h
    unfold clickAddSet
    rw [if_pos h]

/-- Witness for C10 at the empty set list. -/
theorem addSet_bounded_and_default_witness :
    clickAddSet [] = [] ++ [defaultNewSet] :=
  (addSet_bounded_and_default [] (by decide)).2.2.1 (by decide)

end Sculp
